import Mathlib

/-!
Shallow embedding of the CI Lark notification plugin (`main.go`) and proofs
about the claims of its specification.

The program is a single-pass transformation: environment variables are read,
a message (interactive card or plain text) is built as a JSON-like value,
optionally a signature is attached, and the payload is posted to a webhook.
The embedding below models:

* the process environment as a partial map from variable names to values
  (`Env`), with Go's `os.Getenv` semantics (unset reads as `""`);
* `getEnvOrDefault`, `generateSignature` (HMAC-SHA256 over an empty message
  with the string `timestamp ++ "\n" ++ secret` as key, Base64 encoded),
  `getProjectVersion` (with Go's panic on a short slice made explicit as
  `Option`), `createLarkCard`, `createLarkTextMessage`, `createActionButtons`
  and the response-interpretation logic of `sendMessage`;
* JSON values as an inductive `JValue` (numbers as `Int`; the remote
  response's `code` field is an integer in all observed payloads).

SHA-256, HMAC and Base64 are implemented executably over byte lists so that
the signature function is a real computable function, validated against the
standard test vectors (FIPS 180-4 / RFC 4231 / RFC 4648) below.
-/

namespace LarkNotify

/-! ### Process environment

Go's `os.Getenv` returns `""` for an unset variable, so the only observable
difference between "unset" and "set to the empty string" is via `os.Environ`
(used only for debug printing).  We keep the distinction in the model
(`Option String`) so that claims about it are meaningful. -/

/-- The process environment: a variable is either unset (`none`) or set to a
string (possibly empty). -/
def Env : Type := String → Option String

/-- Go `os.Getenv`: the value of the variable, or `""` when unset. -/
def osGetenv (e : Env) (key : String) : String := (e key).getD ""

/-- Point update of an environment (used to state claims comparing an unset
variable with one set to `""`). -/
def setVar (e : Env) (key : String) (v : Option String) : Env :=
  fun k => if k = key then v else e k

/-- An environment built from a finite association list; everything else is
unset. -/
def envOf (l : List (String × String)) : Env :=
  fun k => (l.find? (fun p => p.1 = k)).map (fun p => p.2)

/-- `getEnvOrDefault` from `main.go`: the variable's value if it is set to a
non-empty string, otherwise the supplied default. -/
def getEnvOrDefault (e : Env) (key defaultValue : String) : String :=
  if osGetenv e key ≠ "" then osGetenv e key else defaultValue

/-! ### Go string helpers

`strings.Split` with a one-character separator, `strings.Contains` and
`strings.TrimSpace`, modelled on character lists.  Go's `strings.Split`
always returns at least one element: splitting `""` yields `[""]`. -/

/-- Go `strings.Split` on a single-character separator, over character
lists. -/
def goSplitChars (sep : Char) : List Char → List (List Char)
  | [] => [[]]
  | c :: rest =>
    if c = sep then [] :: goSplitChars sep rest
    else
      match goSplitChars sep rest with
      | [] => [[c]]
      | h :: t => (c :: h) :: t

/-- Go `strings.Split` on a single-character separator. -/
def goSplit (s : String) (sep : Char) : List String :=
  (goSplitChars sep s.data).map String.mk

/-- Go `strings.Contains`: `sub` occurs as a contiguous substring of `s`. -/
def strContains (s sub : String) : Bool :=
  (List.range (s.data.length + 1)).any (fun i => sub.data.isPrefixOf (s.data.drop i))

/-- Go `strings.TrimSpace`: surrounding whitespace removed.  (Go trims the
Unicode White_Space class; all inputs exercised here are ASCII, where this
agrees with `Char.isWhitespace`.) -/
def goTrim (s : String) : String :=
  String.mk (((s.data.dropWhile Char.isWhitespace).reverse.dropWhile Char.isWhitespace).reverse)

/-! ### SHA-256, HMAC-SHA256 and Base64

Executable implementations over byte lists (each byte a `Nat < 256`),
mirroring Go's `crypto/sha256`, `crypto/hmac` and `encoding/base64`
(standard alphabet with padding). -/

/-- Truncate to a 32-bit word. -/
def w32 (n : Nat) : Nat := n % 2 ^ 32

/-- 32-bit right rotation. -/
def rotr (n x : Nat) : Nat := w32 ((x >>> n) ||| (x <<< (32 - n)))

/-- SHA-256 small sigma 0. -/
def ssig0 (x : Nat) : Nat := (rotr 7 x) ^^^ (rotr 18 x) ^^^ (x >>> 3)

/-- SHA-256 small sigma 1. -/
def ssig1 (x : Nat) : Nat := (rotr 17 x) ^^^ (rotr 19 x) ^^^ (x >>> 10)

/-- SHA-256 big sigma 0. -/
def bsig0 (x : Nat) : Nat := (rotr 2 x) ^^^ (rotr 13 x) ^^^ (rotr 22 x)

/-- SHA-256 big sigma 1. -/
def bsig1 (x : Nat) : Nat := (rotr 6 x) ^^^ (rotr 11 x) ^^^ (rotr 25 x)

/-- The 64 SHA-256 round constants. -/
def sha256K : List Nat :=
  [1116352408, 1899447441, 3049323471, 3921009573, 961987163, 1508970993,
   2453635748, 2870763221, 3624381080, 310598401, 607225278, 1426881987,
   1925078388, 2162078206, 2614888103, 3248222580, 3835390401, 4022224774,
   264347078, 604807628, 770255983, 1249150122, 1555081692, 1996064986,
   2554220882, 2821834349, 2952996808, 3210313671, 3336571891, 3584528711,
   113926993, 338241895, 666307205, 773529912, 1294757372, 1396182291,
   1695183700, 1986661051, 2177026350, 2456956037, 2730485921, 2820302411,
   3259730800, 3345764771, 3516065817, 3600352804, 4094571909, 275423344,
   430227734, 506948616, 659060556, 883997877, 958139571, 1322822218,
   1537002063, 1747873779, 1955562222, 2024104815, 2227730452, 2361852424,
   2428436474, 2756734187, 3204031479, 3329325298]

/-- Big-endian byte expansion of `n` to `numBytes` bytes. -/
def toBytesBE (numBytes n : Nat) : List Nat :=
  (List.range numBytes).map (fun i => (n >>> (8 * (numBytes - 1 - i))) % 256)

/-- Big-endian word value of a byte list. -/
def bytesToWordBE (b : List Nat) : Nat := b.foldl (fun acc x => acc * 256 + x) 0

/-- SHA-256 padding: append `0x80`, zero bytes to reach 56 mod 64, then the
bit length as 8 big-endian bytes. -/
def padMessage (msg : List Nat) : List Nat :=
  let l := msg.length
  msg ++ [0x80] ++ List.replicate ((119 - l % 64) % 64) 0 ++ toBytesBE 8 (8 * l)

/-- Split a byte list into 64-byte chunks, with explicit fuel so that the
recursion is structural (and therefore reduces inside the kernel).  Each
step consumes at least one element, so `l.length` is always enough fuel. -/
def chunksGo : Nat → List Nat → List (List Nat)
  | _, [] => []
  | 0, _ => []
  | fuel + 1, l => (l.take 64) :: chunksGo fuel (l.drop 64)

/-- Split a byte list into 64-byte chunks. -/
def chunks64 (l : List Nat) : List (List Nat) := chunksGo l.length l

/-- The 64-word message schedule of one chunk. -/
def msgSchedule (chunk : List Nat) : List Nat :=
  let w16 := (List.range 16).map (fun i => bytesToWordBE ((chunk.drop (4 * i)).take 4))
  (List.range 48).foldl
    (fun w _ =>
      let i := w.length
      w ++ [w32 (ssig1 (w.getD (i - 2) 0) + w.getD (i - 7) 0 +
                 ssig0 (w.getD (i - 15) 0) + w.getD (i - 16) 0)])
    w16

/-- The SHA-256 working state: eight 32-bit words. -/
structure Sha256State where
  a : Nat
  b : Nat
  c : Nat
  d : Nat
  e : Nat
  f : Nat
  g : Nat
  h : Nat
deriving Repr, DecidableEq

/-- The SHA-256 initial hash value. -/
def sha256Init : Sha256State :=
  ⟨1779033703, 3144134277, 1013904242, 2773480762, 1359893119, 2600822924, 528734635, 1541459225⟩

/-- One SHA-256 round. -/
def sha256Round (st : Sha256State) (k w : Nat) : Sha256State :=
  let ch := (st.e &&& st.f) ^^^ ((st.e ^^^ 0xffffffff) &&& st.g)
  let maj := (st.a &&& st.b) ^^^ (st.a &&& st.c) ^^^ (st.b &&& st.c)
  let t1 := w32 (st.h + bsig1 st.e + ch + k + w)
  let t2 := w32 (bsig0 st.a + maj)
  ⟨w32 (t1 + t2), st.a, st.b, st.c, w32 (st.d + t1), st.e, st.f, st.g⟩

/-- Compress one 64-byte chunk into the running hash state. -/
def compressChunk (st : Sha256State) (chunk : List Nat) : Sha256State :=
  let w := msgSchedule chunk
  let fin := (List.range 64).foldl (fun s i => sha256Round s (sha256K.getD i 0) (w.getD i 0)) st
  ⟨w32 (st.a + fin.a), w32 (st.b + fin.b), w32 (st.c + fin.c), w32 (st.d + fin.d),
   w32 (st.e + fin.e), w32 (st.f + fin.f), w32 (st.g + fin.g), w32 (st.h + fin.h)⟩

/-- SHA-256 of a byte list, as a 32-byte list. -/
def sha256 (msg : List Nat) : List Nat :=
  let fin := (chunks64 (padMessage msg)).foldl compressChunk sha256Init
  toBytesBE 4 fin.a ++ toBytesBE 4 fin.b ++ toBytesBE 4 fin.c ++ toBytesBE 4 fin.d ++
  toBytesBE 4 fin.e ++ toBytesBE 4 fin.f ++ toBytesBE 4 fin.g ++ toBytesBE 4 fin.h

/-- HMAC-SHA256 (Go `crypto/hmac` with `sha256.New`): block size 64. -/
def hmacSha256 (key msg : List Nat) : List Nat :=
  let k1 := if 64 < key.length then sha256 key else key
  let k0 := k1 ++ List.replicate (64 - k1.length) 0
  sha256 ((k0.map (fun b => b ^^^ 0x5c)) ++ sha256 ((k0.map (fun b => b ^^^ 0x36)) ++ msg))

/-- The Base64 standard alphabet. -/
def base64Alphabet : List Char :=
  "ABCDEFGHIJKLMNOPQRSTUVWXYZabcdefghijklmnopqrstuvwxyz0123456789+/".data

/-- One Base64 character. -/
def b64Char (n : Nat) : Char := base64Alphabet.getD n 'A'

/-- Base64 standard encoding (RFC 4648 with `=` padding), as characters. -/
def base64Chars : List Nat → List Char
  | [] => []
  | [b1] =>
    [b64Char (b1 >>> 2), b64Char ((b1 % 4) <<< 4), '=', '=']
  | [b1, b2] =>
    [b64Char (b1 >>> 2), b64Char (((b1 % 4) <<< 4) ||| (b2 >>> 4)),
     b64Char ((b2 % 16) <<< 2), '=']
  | b1 :: b2 :: b3 :: rest =>
    b64Char (b1 >>> 2) :: b64Char (((b1 % 4) <<< 4) ||| (b2 >>> 4)) ::
    b64Char (((b2 % 16) <<< 2) ||| (b3 >>> 6)) :: b64Char (b3 % 64) ::
    base64Chars rest

/-- Go `base64.StdEncoding.EncodeToString`. -/
def base64Encode (l : List Nat) : String := String.mk (base64Chars l)


/-- The UTF-8 encoding of one character. -/
def utf8Bytes (c : Char) : List Nat :=
  let n := c.toNat
  if n < 0x80 then [n]
  else if n < 0x800 then
    [0xC0 ||| (n >>> 6), 0x80 ||| (n &&& 0x3F)]
  else if n < 0x10000 then
    [0xE0 ||| (n >>> 12), 0x80 ||| ((n >>> 6) &&& 0x3F), 0x80 ||| (n &&& 0x3F)]
  else
    [0xF0 ||| (n >>> 18), 0x80 ||| ((n >>> 12) &&& 0x3F),
     0x80 ||| ((n >>> 6) &&& 0x3F), 0x80 ||| (n &&& 0x3F)]

/-- UTF-8 bytes of a string, as a `Nat` list. -/
def strBytes (s : String) : List Nat :=
  s.data.foldr (fun c acc => utf8Bytes c ++ acc) []

/-- `generateSignature` from `main.go`: the string `timestamp ++ "\n" ++ secret`
is used as the HMAC-SHA256 *key*, the HMAC is taken over the empty message
(`h.Sum(nil)` with nothing written), and the digest is Base64 encoded. -/
def generateSignature (timestamp secret : String) : String :=
  let stringToSign := timestamp ++ "\n" ++ secret
  base64Encode (hmacSha256 (strBytes stringToSign) [])

/-! ### Version resolution

Go's `sha[:7]` panics when `len(sha) < 7`; the model makes the panic explicit
as `none`.  (Go slices bytes; the SHA values involved are ASCII, where byte
and character positions coincide, so the model slices characters.) -/

/-- Go string slicing `s[:n]`: the first `n` characters, or a panic (`none`)
when the string is shorter than `n`. -/
def goSliceTo (s : String) (n : Nat) : Option String :=
  if n ≤ s.data.length then some (String.mk (s.data.take n)) else none

/-- `getProjectVersion` from `main.go`: the commit tag if non-empty, else
`sha[:7]` of a non-empty commit SHA (panicking on a short one), else `""`. -/
def getProjectVersion (e : Env) : Option String :=
  let tag := getEnvOrDefault e "CI_COMMIT_TAG" ""
  if tag ≠ "" then some tag
  else
    let sha := getEnvOrDefault e "CI_COMMIT_SHA" ""
    if sha ≠ "" then goSliceTo sha 7
    else some ""

/-! ### JSON-like message values -/

/-- JSON-like values, the image of Go's `map[string]any` message trees.
Numbers are modelled as `Int` (every numeric field in the observed payloads
is an integer). -/
inductive JValue where
  | str (s : String)
  | num (n : Int)
  | obj (fields : List (String × JValue))
  | arr (elems : List JValue)

/-- Field lookup on an object value. -/
def JValue.field? : JValue → String → Option JValue
  | .obj fields, k => (fields.find? (fun p => p.1 = k)).map (fun p => p.2)
  | _, _ => none

/-- String extraction (Go's `.(string)` type assertion). -/
def JValue.asString? : JValue → Option String
  | .str s => some s
  | _ => none

/-- Array extraction. -/
def JValue.items? : JValue → Option (List JValue)
  | .arr l => some l
  | _ => none

/-! ### Source string literals

The emoji string literals of `main.go` are stored in the file as the
following exact codepoint sequences; they are reproduced verbatim. -/

/-- A string from explicit codepoints. -/
def glyph (l : List Nat) : String := String.mk (l.map Char.ofNat)

/-- The failure status icon literal of `main.go`. -/
def alarmIcon : String := glyph [0xf8ff, 0xfc, 0xf6, 0xae]

/-- The success status icon literal of `main.go`. -/
def checkIcon : String := glyph [0x201a, 0xfa, 0xd6]

/-- The bullet literal of `main.go`. -/
def bulletGlyph : String := glyph [0x201a, 0xc4, 0xa2]

/-- The project line icon literal of `main.go`. -/
def projGlyph : String := glyph [0xf8ff, 0xfc, 0xec, 0xe3]

/-- The branch line icon literal of `main.go`. -/
def branchGlyph : String := glyph [0xf8ff, 0xfc, 0xe5, 0xf8]

/-- The author line icon literal of `main.go`. -/
def authorGlyph : String := glyph [0xf8ff, 0xfc, 0xeb, 0xa7]

/-- The version line icon literal of `main.go`. -/
def versionGlyph : String := glyph [0xf8ff, 0xfc, 0xe8, 0x2211, 0xd4, 0x220f, 0xe8]

/-- The commit message line icon literal of `main.go`. -/
def messageGlyph : String := glyph [0xf8ff, 0xfc, 0xed, 0xa8]

/-- The variables header icon literal of `main.go`. -/
def variablesGlyph : String := glyph [0xf8ff, 0xfc, 0xec, 0xe4]

/-- The pipeline link icon literal of `main.go`. -/
def linkGlyph : String := glyph [0xf8ff, 0xfc, 0xee, 0xf3]

/-! ### Status resolution and first-line truncation -/

/-- The status string used by both formatters: `PLUGIN_STATUS` overriding
`DRONE_BUILD_STATUS` (empty values fall through). -/
def resolveStatus (e : Env) : String :=
  getEnvOrDefault e "PLUGIN_STATUS" (getEnvOrDefault e "DRONE_BUILD_STATUS" "")

/-- Go `strings.Split(s, "\n")[0]`: the first line of a (possibly multi-line)
string.  `strings.Split` never returns an empty slice, so the index is safe. -/
def goFirstLine (s : String) : String :=
  String.mk ((goSplitChars '\n' s.data).headD [])

/-! ### Action buttons (`createActionButtons`) -/

/-- An action button: the `content` of its `text` object, its `type`
(`primary` or `default`) and its `url`, as built by `createActionButtons`
(the fixed `"tag": "button"` / `"tag": "plain_text"` fields are implied). -/
structure Button where
  content : String
  type : String
  url : String
deriving Repr, DecidableEq

/-- The JSON value of a button, as built in `createActionButtons`. -/
def Button.toJValue (b : Button) : JValue :=
  .obj [("tag", .str "button"),
        ("text", .obj [("content", .str b.content), ("tag", .str "plain_text")]),
        ("type", .str b.type),
        ("url", .str b.url)]

/-- The buttons accumulated before filtering: pipeline button, then release
button (tag and repo URL both present) or commit button (no tag, forge URL
present). -/
def builtButtons (e : Env) : List Button :=
  (if getEnvOrDefault e "CI_PIPELINE_URL" "" ≠ "" then
    [⟨"View Pipeline", "primary", getEnvOrDefault e "CI_PIPELINE_URL" ""⟩]
   else []) ++
  (if getEnvOrDefault e "CI_COMMIT_TAG" "" ≠ "" then
    (if getEnvOrDefault e "CI_REPO_URL" "" ≠ "" then
      [⟨"View Release", "default",
        getEnvOrDefault e "CI_REPO_URL" "" ++ "/releases/tag/" ++ getEnvOrDefault e "CI_COMMIT_TAG" ""⟩]
     else [])
   else
    (if getEnvOrDefault e "CI_PIPELINE_FORGE_URL" "" ≠ "" then
      [⟨"View Commit", "default", getEnvOrDefault e "CI_PIPELINE_FORGE_URL" ""⟩]
     else []))

/-- The filter's per-name match: a trimmed requested name against a button's
label, by substring containment, exactly as in the source. -/
def btnMatch (name : String) (b : Button) : Bool :=
  (name == "pipeline" && strContains b.content "Pipeline") ||
  (name == "commit" && strContains b.content "Commit") ||
  (name == "release" && strContains b.content "Release")

/-- The filtering loop of `createActionButtons`: for each comma-separated
name (outer loop), append the first accumulated button matching it (inner
loop with `break`). -/
def filterButtons (requestedButtons : String) (actions : List Button) : List Button :=
  (goSplit requestedButtons ',').foldl
    (fun acc name =>
      match actions.find? (btnMatch (goTrim name)) with
      | some a => acc ++ [a]
      | none => acc)
    []

/-- `createActionButtons` from `main.go`. -/
def createActionButtons (e : Env) : List Button :=
  let actions := builtButtons e
  let requestedButtons := getEnvOrDefault e "PLUGIN_BUTTONS" ""
  if requestedButtons ≠ "" then filterButtons requestedButtons actions
  else actions

/-! ### Card and text formatting -/

/-- The variables block of the card, built by the source's loop. -/
def cardVariablesContent (e : Env) (vars : String) : String :=
  (goSplit vars ',').foldl
    (fun acc varName =>
      acc ++ bulletGlyph ++ " `" ++ (goTrim varName) ++ "`: " ++
        getEnvOrDefault e (goTrim varName) "" ++ "\n")
    "**Variables:**\n"

/-- `createLarkCard` from `main.go`, as a JSON value. -/
def createLarkCard (e : Env) (projectVersion : String) : JValue :=
  let status := resolveStatus e
  let headerColor := if status = "failure" then "red" else "green"
  let statusIcon := if status = "failure" then alarmIcon else checkIcon
  let statusText := if status = "failure" then "Pipeline Failed" else "Pipeline Succeeded"
  let elements : List JValue :=
    [.obj [("tag", .str "div"),
           ("text", .obj [("content", .str
              ("**Project:** " ++ getEnvOrDefault e "CI_REPO" "" ++
               "\n**Branch:** " ++ getEnvOrDefault e "CI_COMMIT_BRANCH" "" ++
               "\n**Author:** " ++ getEnvOrDefault e "CI_COMMIT_AUTHOR" "" ++
               "\n**Version:** " ++ projectVersion)),
             ("tag", .str "lark_md")])],
     .obj [("tag", .str "hr")],
     .obj [("tag", .str "div"),
           ("text", .obj [("content", .str
              ("**Commit Message:**\n" ++
               goFirstLine (getEnvOrDefault e "CI_COMMIT_MESSAGE" ""))),
             ("tag", .str "lark_md")])]]
  let vars := getEnvOrDefault e "PLUGIN_VARIABLES" ""
  let elements := elements ++
    (if vars ≠ "" then
      [.obj [("tag", .str "hr")],
       .obj [("tag", .str "div"),
             ("text", .obj [("content", .str (cardVariablesContent e vars)),
               ("tag", .str "lark_md")])]]
     else [])
  let actions := createActionButtons e
  let elements := elements ++
    (if actions.length > 0 then
      [.obj [("tag", .str "action"), ("actions", .arr (actions.map Button.toJValue))]]
     else [])
  let headerTitle :=
    getEnvOrDefault e "CI_REPO_NAME" "" ++ " - " ++ statusIcon ++ " " ++ statusText
  .obj [("msg_type", .str "interactive"),
        ("card", .obj
          [("header", .obj
            [("title", .obj [("content", .str headerTitle), ("tag", .str "plain_text")]),
             ("template", .str headerColor)]),
           ("elements", .arr elements)])]

/-- The text body built by `createLarkTextMessage`. -/
def textMessageBody (e : Env) (projectVersion : String) : String :=
  let status := resolveStatus e
  let statusIcon := if status = "failure" then alarmIcon else checkIcon
  let statusText := if status = "failure" then "PIPELINE FAILED" else "PIPELINE SUCCEEDED"
  let message := statusIcon ++ " " ++ statusText ++ "\n\n"
  let message := message ++ projGlyph ++ " Project: " ++ getEnvOrDefault e "CI_REPO" "" ++ "\n"
  let message := message ++ branchGlyph ++ " Branch: " ++ getEnvOrDefault e "CI_COMMIT_BRANCH" "" ++ "\n"
  let message := message ++ authorGlyph ++ " Author: " ++ getEnvOrDefault e "CI_COMMIT_AUTHOR" "" ++ "\n"
  let message := message ++ versionGlyph ++ " Version: " ++ projectVersion ++ "\n"
  let message := message ++ messageGlyph ++ " Message: " ++
    goFirstLine (getEnvOrDefault e "CI_COMMIT_MESSAGE" "") ++ "\n"
  let vars := getEnvOrDefault e "PLUGIN_VARIABLES" ""
  let message :=
    if vars ≠ "" then
      message ++ "\n" ++ variablesGlyph ++ " Variables:\n" ++
        (goSplit vars ',').foldl
          (fun acc varName =>
            acc ++ bulletGlyph ++ " " ++ (goTrim varName) ++ ": " ++
              getEnvOrDefault e (goTrim varName) "" ++ "\n")
          ""
    else message
  let pipelineURL := getEnvOrDefault e "CI_PIPELINE_URL" ""
  if pipelineURL ≠ "" then message ++ "\n" ++ linkGlyph ++ " Pipeline: " ++ pipelineURL
  else message

/-- `createLarkTextMessage` from `main.go`, as a JSON value. -/
def createLarkTextMessage (e : Env) (projectVersion : String) : JValue :=
  .obj [("msg_type", .str "text"),
        ("content", .obj [("text", .str (textMessageBody e projectVersion))])]

/-! ### Delivery outcome (`sendMessage`) and signature attachment -/

/-- How `sendMessage` classifies a webhook HTTP response.  `httpStatusError`
and `remoteRejected` both end in `osExit(1)`; `success` prints `Done!`. -/
inductive DeliveryOutcome where
  | success
  | httpStatusError
  | remoteRejected
deriving Repr, DecidableEq

/-- The value of the `code` field of the unmarshalled response object
(`response["code"]`). -/
def responseCode (response : List (String × JValue)) : Option JValue :=
  (response.find? (fun p => p.1 = "code")).map (fun p => p.2)

/-- Go's `.(float64)` type assertion on a looked-up field: the numeric
value when the field exists and is a number, otherwise nothing. -/
def asNum? : Option JValue → Option Int
  | some (JValue.num c) => some c
  | _ => none

/-- The response interpretation of `sendMessage`: exit 1 unless the status
code is exactly `http.StatusOK` (200); on 200, unmarshal the body — on a
parse error (`none`, including any non-object JSON) treat as success,
otherwise reject exactly when the object has a numeric `code` field that is
non-zero. -/
def sendMessageOutcome (statusCode : Nat)
    (unmarshalled : Option (List (String × JValue))) : DeliveryOutcome :=
  if statusCode ≠ 200 then .httpStatusError
  else
    match unmarshalled with
    | some response =>
      match asNum? (responseCode response) with
      | some c => if c ≠ 0 then .remoteRejected else .success
      | none => .success
    | none => .success

/-- The card/text mode selection of `main`. -/
def useCard (e : Env) : Bool :=
  getEnvOrDefault e "PLUGIN_USE_CARD" "true" == "true"

/-- `main` exits 1 immediately exactly when this holds. -/
def missingWebhookFatal (e : Env) : Bool :=
  getEnvOrDefault e "PLUGIN_WEBHOOK_URL" "" == ""

/-- The signature-attachment step of `main`: when a secret is configured the
two fields `timestamp` and `sign` are added to the message object. -/
def attachSignature (e : Env) (timestamp : String)
    (message : List (String × JValue)) : List (String × JValue) :=
  let secret := getEnvOrDefault e "PLUGIN_SECRET" ""
  if secret ≠ "" then
    message ++ [("timestamp", .str timestamp),
                ("sign", .str (generateSignature timestamp secret))]
  else message

/-! ### Extraction helpers for stating claims about the message trees -/

/-- The card header color (`card.header.template`). -/
def cardHeaderTemplate (card : JValue) : Option String :=
  (card.field? "card").bind fun c =>
    (c.field? "header").bind fun h =>
      (h.field? "template").bind JValue.asString?

/-- The card header title text (`card.header.title.content`). -/
def cardHeaderTitle (card : JValue) : Option String :=
  (card.field? "card").bind fun c =>
    (c.field? "header").bind fun h =>
      (h.field? "title").bind fun t =>
        (t.field? "content").bind JValue.asString?

/-- The commit-message section of the card: `card.elements[2].text.content`. -/
def cardCommitContent (card : JValue) : Option String :=
  (card.field? "card").bind fun c =>
    (c.field? "elements").bind fun el =>
      el.items?.bind fun l =>
        (l.get? 2).bind fun s =>
          (s.field? "text").bind fun t =>
            (t.field? "content").bind JValue.asString?

/-- The pipeline part of the built button list: present exactly when a
pipeline URL is configured. -/
def pipelinePart (e : Env) : List Button :=
  if getEnvOrDefault e "CI_PIPELINE_URL" "" ≠ "" then
    [⟨"View Pipeline", "primary", getEnvOrDefault e "CI_PIPELINE_URL" ""⟩]
  else []

/-- The specification's success criterion on a parsed response body: it is a
JSON object with a numeric `code` field that is non-zero. -/
def hasNonzeroCode (unmarshalled : Option (List (String × JValue))) : Bool :=
  match unmarshalled with
  | some response =>
    match asNum? (responseCode response) with
    | some c => c ≠ 0
    | none => false
  | none => false

/-! ### Decomposition of the text message body

`textMessageBody` re-expressed as status line, info lines, commit-message
line and trailing blocks, to state first-line and status claims. -/

/-- The status line of the text message. -/
def textStatusLine (e : Env) : String :=
  (if resolveStatus e = "failure" then alarmIcon else checkIcon) ++ " " ++
  (if resolveStatus e = "failure" then "PIPELINE FAILED" else "PIPELINE SUCCEEDED") ++ "\n\n"

/-- The project, branch, author and version lines of the text message. -/
def textInfoLines (e : Env) (projectVersion : String) : String :=
  projGlyph ++ " Project: " ++ getEnvOrDefault e "CI_REPO" "" ++ "\n" ++
  branchGlyph ++ " Branch: " ++ getEnvOrDefault e "CI_COMMIT_BRANCH" "" ++ "\n" ++
  authorGlyph ++ " Author: " ++ getEnvOrDefault e "CI_COMMIT_AUTHOR" "" ++ "\n" ++
  versionGlyph ++ " Version: " ++ projectVersion ++ "\n"

/-- The commit-message line of the text message. -/
def textMsgLine (e : Env) : String :=
  messageGlyph ++ " Message: " ++
  goFirstLine (getEnvOrDefault e "CI_COMMIT_MESSAGE" "") ++ "\n"

/-- The optional variables block and pipeline link of the text message. -/
def textTail (e : Env) : String :=
  (if getEnvOrDefault e "PLUGIN_VARIABLES" "" ≠ "" then
    "\n" ++ variablesGlyph ++ " Variables:\n" ++
      (goSplit (getEnvOrDefault e "PLUGIN_VARIABLES" "") ',').foldl
        (fun acc varName =>
          acc ++ bulletGlyph ++ " " ++ (goTrim varName) ++ ": " ++
            getEnvOrDefault e (goTrim varName) "" ++ "\n")
        ""
   else "") ++
  (if getEnvOrDefault e "CI_PIPELINE_URL" "" ≠ "" then
    "\n" ++ linkGlyph ++ " Pipeline: " ++ getEnvOrDefault e "CI_PIPELINE_URL" ""
   else "")

/-! ### Concrete environments used as test inputs -/

/-- Status override to `failure` with a succeeding pipeline. -/
def envStatusOverride : Env :=
  envOf [("PLUGIN_STATUS", "failure"), ("DRONE_BUILD_STATUS", "success"),
         ("CI_REPO_NAME", "repo")]

/-- Pipeline and forge URLs present, no tag, allow-list `commit,pipeline`. -/
def envFilterOrder : Env :=
  envOf [("CI_PIPELINE_URL", "https://ci.example/p"),
         ("CI_PIPELINE_FORGE_URL", "https://forge.example/c"),
         ("PLUGIN_BUTTONS", "commit,pipeline")]

/-- Tag present but no repository URL, forge URL present. -/
def envTagNoRepo : Env :=
  envOf [("CI_COMMIT_TAG", "v1.0.0"),
         ("CI_PIPELINE_FORGE_URL", "https://forge.example/c")]

/-- Only a forge URL present. -/
def envForgeOnly : Env :=
  envOf [("CI_PIPELINE_FORGE_URL", "https://forge.example/c")]

/-- A commit SHA of fewer than 7 characters, no tag. -/
def envShortSha : Env := envOf [("CI_COMMIT_SHA", "abc")]

/-- The empty environment: nothing set. -/
def envEmpty : Env := envOf []

/-- A 16-character commit SHA, no tag. -/
def envLongSha : Env := envOf [("CI_COMMIT_SHA", "abcdef1234567890")]

/-- A pipeline URL with the allow-list `pipeline,pipeline`. -/
def envDupFilter : Env :=
  envOf [("CI_PIPELINE_URL", "https://ci.example/p"),
         ("PLUGIN_BUTTONS", "pipeline,pipeline")]

/-! ### Helper lemmas -/

/-- String concatenation is associative. -/
theorem strAppend_assoc (a b c : String) : a ++ b ++ c = a ++ (b ++ c) := by
  apply String.ext
  simp [String.data_append]

/-- The empty string is a right identity for concatenation. -/
theorem strAppend_empty (a : String) : a ++ "" = a := by
  apply String.ext
  simp [String.data_append]

/-- The empty string is a left identity for concatenation. -/
theorem strEmpty_append (a : String) : "" ++ a = a := by
  apply String.ext
  simp [String.data_append]

/-- A `String.mk` of a non-empty character list is not the empty string. -/
theorem strMk_ne_empty (l : List Char) (h : l ≠ []) : String.mk l ≠ "" := by
  intro hc
  exact h (congrArg String.data hc)

/-- `goSplitChars` never returns the empty list. -/
theorem goSplitChars_ne_nil (sep : Char) (l : List Char) : goSplitChars sep l ≠ [] := by
  cases l with
  | nil => simp [goSplitChars]
  | cons c rest =>
    simp only [goSplitChars]
    by_cases h : c = sep
    · simp [h]
    · simp only [if_neg h]
      cases goSplitChars sep rest <;> simp

/-- The first piece of `goSplitChars` is exactly the characters before the
first occurrence of the separator. -/
theorem goSplitChars_head (sep : Char) (l : List Char) :
    (goSplitChars sep l).headD [] = l.takeWhile (fun c => c ≠ sep) := by
  induction l with
  | nil => simp [goSplitChars]
  | cons c rest ih =>
    simp only [goSplitChars, List.takeWhile]
    by_cases h : c = sep
    · simp [h]
    · simp only [if_neg h]
      have hne := goSplitChars_ne_nil sep rest
      cases hgs : goSplitChars sep rest with
      | nil => exact absurd hgs hne
      | cons hd tl =>
        simp only [List.headD]
        rw [hgs] at ih
        simp only [List.headD] at ih
        simp [decide_eq_true_eq, h, ih]

/-- A SHA-256 digest is always 32 bytes. -/
theorem sha256_length (msg : List Nat) : (sha256 msg).length = 32 := by
  simp [sha256, toBytesBE]

/-- An HMAC-SHA256 digest is always 32 bytes. -/
theorem hmacSha256_length (key msg : List Nat) : (hmacSha256 key msg).length = 32 :=
  sha256_length _

/-- Base64 of a non-empty byte list is a non-empty character list. -/
theorem base64Chars_ne_nil (l : List Nat) (h : l ≠ []) : base64Chars l ≠ [] := by
  match l with
  | [] => exact absurd rfl h
  | [b1] => simp [base64Chars]
  | [b1, b2] => simp [base64Chars]
  | b1 :: b2 :: b3 :: rest => simp [base64Chars]

/-! ### Validation of the hash stack against published test vectors

SHA-256 against FIPS 180-4 (the `abc` vector and the boundary lengths 55
and 119, which exercise the padding rule at 55 mod 64), HMAC-SHA256 against
RFC 4231 (test cases 2 and 6, the latter with a key longer than the block
size, which is pre-hashed), Base64 against RFC 4648, and the signature
itself against the output of Go's `crypto/hmac` at the test pair of the
repository's own test suite and at a 119-byte key. -/

set_option maxRecDepth 40000 in
/-- FIPS 180-4 vector: the SHA-256 digest of `abc`. -/
theorem sha256_vector_abc : sha256 (strBytes "abc") =
  [186, 120, 22, 191, 143, 1, 207, 234, 65, 65, 64,
   222, 93, 174, 34, 35, 176, 3, 97, 163, 150, 23,
   122, 156, 180, 16, 255, 97, 242, 0, 21, 173] := by
  decide

set_option maxRecDepth 40000 in
/-- SHA-256 at message length 55, the boundary where the padding adds no
zero bytes (one 64-byte block in total). -/
theorem sha256_vector_len55 : sha256 (List.replicate 55 97) =
  [159, 67, 144, 248, 211, 12, 45, 217, 46, 201, 240,
   149, 182, 94, 43, 154, 233, 176, 169, 37, 165, 37,
   142, 36, 28, 159, 30, 145, 15, 115, 67, 24] := by
  decide

set_option maxRecDepth 40000 in
set_option maxHeartbeats 1000000 in
/-- SHA-256 at message length 119 (55 mod 64, two blocks). -/
theorem sha256_vector_len119 : sha256 (List.replicate 119 97) =
  [49, 235, 165, 28, 49, 58, 92, 8, 34, 106, 223,
   24, 212, 163, 89, 207, 223, 216, 210, 232, 22, 177,
   63, 74, 249, 82, 247, 234, 101, 132, 220, 251] := by
  decide

set_option maxRecDepth 40000 in
set_option maxHeartbeats 1000000 in
/-- RFC 4231 test case 2: HMAC-SHA256 with key `Jefe`. -/
theorem hmac_vector_rfc4231_case2 :
    hmacSha256 (strBytes "Jefe") (strBytes "what do ya want for nothing?") =
  [91, 220, 193, 70, 191, 96, 117, 78, 106, 4, 36,
   38, 8, 149, 117, 199, 90, 0, 63, 8, 157, 39,
   57, 131, 157, 236, 88, 185, 100, 236, 56, 67] := by
  decide

set_option maxRecDepth 40000 in
set_option maxHeartbeats 2000000 in
/-- RFC 4231 test case 6: HMAC-SHA256 with a 131-byte key, longer than the
block size, so the key is pre-hashed. -/
theorem hmac_vector_rfc4231_case6 :
    hmacSha256 (List.replicate 131 170)
      (strBytes "Test Using Larger Than Block-Size Key - Hash Key First") =
  [96, 228, 49, 89, 30, 224, 182, 127, 13, 138, 38,
   170, 203, 245, 183, 127, 142, 11, 198, 33, 55, 40,
   197, 20, 5, 70, 4, 15, 14, 227, 127, 84] := by
  decide

/-- RFC 4648 vectors for the standard Base64 alphabet with padding. -/
theorem base64_vectors :
    base64Encode (strBytes "Man") = "TWFu" ∧
    base64Encode (strBytes "Ma") = "TWE=" ∧
    base64Encode (strBytes "M") = "TQ==" ∧
    base64Encode (strBytes "light work.") = "bGlnaHQgd29yay4=" := by
  refine ⟨by decide, by decide, by decide, by decide⟩

set_option maxRecDepth 40000 in
set_option maxHeartbeats 2000000 in
/-- The signature at the test pair of the repository's own test suite,
matching the output of Go's `crypto/hmac`. -/
theorem generateSignature_vector :
    generateSignature "1622222222" "test_secret" = "ameEs39IMOBQRbxy+/TOirHlqQXU9O+AR9OnatDi6zM=" := by
  decide

set_option maxRecDepth 40000 in
set_option maxHeartbeats 4000000 in
/-- The signature at a 108-character secret: the HMAC key
`timestamp ++ "\n" ++ secret` is 119 bytes, longer than the block size and
of length 55 mod 64, exercising the key pre-hash; matches Go's output. -/
theorem generateSignature_vector_longKey :
    generateSignature "1622222222" (String.mk (List.replicate 108 (Char.ofNat 115))) =
      "Y+n7ksf4o83EfC/Lx18GlQCJUNSCyHPlTf6g9IJM/i4=" := by
  decide

/-- `goFirstLine` is the portion of the string before its first newline. -/
theorem goFirstLine_eq (s : String) :
    goFirstLine s = String.mk (s.data.takeWhile (fun c => c ≠ '\n')) := by
  unfold goFirstLine
  rw [goSplitChars_head]

/-- The resolved status is `"failure"` exactly when the override is
`"failure"`, or the override is empty and the pipeline status is
`"failure"`. -/
theorem resolveStatus_failure_iff (e : Env) :
    resolveStatus e = "failure" ↔
      (osGetenv e "PLUGIN_STATUS" = "failure" ∨
       (osGetenv e "PLUGIN_STATUS" = "" ∧ osGetenv e "DRONE_BUILD_STATUS" = "failure")) := by
  unfold resolveStatus getEnvOrDefault
  by_cases h1 : osGetenv e "PLUGIN_STATUS" = "" <;>
    by_cases h2 : osGetenv e "DRONE_BUILD_STATUS" = "" <;>
      simp [h1, h2] <;> tauto

/-- The header color and title of the card, as functions of the resolved
status. -/
theorem cardHeader_parts (e : Env) (v : String) :
    cardHeaderTemplate (createLarkCard e v) =
      some (if resolveStatus e = "failure" then "red" else "green") ∧
    cardHeaderTitle (createLarkCard e v) =
      some (getEnvOrDefault e "CI_REPO_NAME" "" ++ " - " ++
        (if resolveStatus e = "failure" then alarmIcon else checkIcon) ++ " " ++
        (if resolveStatus e = "failure" then "Pipeline Failed" else "Pipeline Succeeded")) := by
  constructor <;> by_cases h : resolveStatus e = "failure" <;>
    simp [createLarkCard, cardHeaderTemplate, cardHeaderTitle, JValue.field?,
      JValue.asString?, h]

/-- The commit-message section of the card always holds the first line of
the commit message. -/
theorem cardCommitContent_eq (e : Env) (v : String) :
    cardCommitContent (createLarkCard e v) =
      some ("**Commit Message:**\n" ++
        goFirstLine (getEnvOrDefault e "CI_COMMIT_MESSAGE" "")) := by
  simp [createLarkCard, cardCommitContent, JValue.field?, JValue.asString?,
    JValue.items?]

/-- Decomposition of the text message body into its four blocks. -/
theorem textMessageBody_decomp (e : Env) (v : String) :
    textMessageBody e v =
      textStatusLine e ++ textInfoLines e v ++ textMsgLine e ++ textTail e := by
  unfold textMessageBody textStatusLine textInfoLines textMsgLine textTail
  by_cases h1 : getEnvOrDefault e "PLUGIN_VARIABLES" "" ≠ ""
  · by_cases h2 : getEnvOrDefault e "CI_PIPELINE_URL" "" ≠ ""
    · simp only [if_pos h1, if_pos h2, strAppend_assoc, strAppend_empty, strEmpty_append]
    · simp only [if_pos h1, if_neg h2, strAppend_assoc, strAppend_empty, strEmpty_append]
  · by_cases h2 : getEnvOrDefault e "CI_PIPELINE_URL" "" ≠ ""
    · simp only [if_neg h1, if_pos h2, strAppend_assoc, strAppend_empty, strEmpty_append]
    · simp only [if_neg h1, if_neg h2, strAppend_assoc, strAppend_empty, strEmpty_append]

/-- The filtering loop collects, in allow-list order, the first accumulated
button matching each name. -/
theorem filterButtons_eq (requestedButtons : String) (actions : List Button) :
    filterButtons requestedButtons actions =
      (goSplit requestedButtons ',').filterMap
        (fun name => actions.find? (btnMatch (goTrim name))) := by
  unfold filterButtons
  generalize goSplit requestedButtons ',' = names
  suffices h : ∀ (acc : List Button),
      names.foldl
        (fun acc name =>
          match actions.find? (btnMatch (goTrim name)) with
          | some a => acc ++ [a]
          | none => acc) acc =
      acc ++ names.filterMap (fun name => actions.find? (btnMatch (goTrim name))) by
    simpa using h []
  induction names with
  | nil => simp
  | cons n ns ih =>
    intro acc
    cases hf : actions.find? (btnMatch (goTrim n)) <;>
      simp [List.filterMap_cons, hf, ih, strAppend_assoc]

/-- Counting occurrences through `filterMap`. -/
theorem countP_filterMap_eq (f : String → Option Button) (l : List String) (b : Button) :
    (l.filterMap f).countP (fun x => decide (x = b)) =
      l.countP (fun n => decide (f n = some b)) := by
  induction l with
  | nil => rfl
  | cons x xs ih =>
    cases hfx : f x with
    | none => simp [List.filterMap_cons, hfx, List.countP_cons, ih]
    | some a =>
      by_cases hab : a = b <;>
        simp [List.filterMap_cons, hfx, List.countP_cons, ih, hab]

/-- The `code`-field branch of `sendMessage` as a function of the asserted
numeric value. -/
theorem codeBranch_eq (m : Option Int) :
    (match m with
      | some c =>
        if c ≠ 0 then DeliveryOutcome.remoteRejected else DeliveryOutcome.success
      | none => DeliveryOutcome.success) =
      (if (match m with
            | some c => decide (c ≠ 0)
            | none => false) = true then
        DeliveryOutcome.remoteRejected
       else DeliveryOutcome.success) := by
  cases m with
  | none => simp
  | some c => by_cases hc : c = 0 <;> simp [hc]

/-- On a 200 status the outcome depends only on the rejection criterion. -/
theorem sendMessageOutcome_ok (u : Option (List (String × JValue))) :
    sendMessageOutcome 200 u =
      if hasNonzeroCode u then DeliveryOutcome.remoteRejected
      else DeliveryOutcome.success := by
  cases u with
  | none => simp [sendMessageOutcome, hasNonzeroCode]
  | some response =>
    simp only [sendMessageOutcome, hasNonzeroCode, ne_eq, not_true_eq_false, if_false]
    exact codeBranch_eq (asNum? (responseCode response))

/-! ## Claims -/

/-- C1, counterexample: HTTP status 201 is in the 2xx class and its body is
unparseable, so the claim calls it a success, but the dispatcher reports an
HTTP-status error (the source compares against `http.StatusOK`, i.e.
exactly 200, not against the 2xx class). -/
theorem C1_counterexample :
    (200 ≤ 201 ∧ 201 < 300) ∧
    sendMessageOutcome 201 none = DeliveryOutcome.httpStatusError ∧
    sendMessageOutcome 201 none ≠ DeliveryOutcome.success :=
  ⟨by decide, by decide, by decide⟩

/-- C1 (amended): the dispatcher reports success exactly when the HTTP
status is exactly 200 and the response body is not a JSON object with a
non-zero numeric `code` field; every non-200 status (including other 2xx
codes) reports an HTTP-status error (process exit 1); a 200 response with a
body that does not parse as a JSON object is treated as success. -/
theorem C1_delivery (statusCode : Nat) (u : Option (List (String × JValue))) :
    (sendMessageOutcome statusCode u = DeliveryOutcome.success ↔
      statusCode = 200 ∧ hasNonzeroCode u = false) ∧
    (statusCode ≠ 200 →
      sendMessageOutcome statusCode u = DeliveryOutcome.httpStatusError) ∧
    (statusCode = 200 → hasNonzeroCode u = true →
      sendMessageOutcome statusCode u = DeliveryOutcome.remoteRejected) ∧
    sendMessageOutcome 200 none = DeliveryOutcome.success := by
  have hok : sendMessageOutcome 200 none = DeliveryOutcome.success := by
    rw [sendMessageOutcome_ok]
    simp [hasNonzeroCode]
  by_cases h : statusCode = 200
  · subst h
    rw [sendMessageOutcome_ok]
    refine ⟨?_, ?_, ?_, hok⟩ <;> cases hc : hasNonzeroCode u <;> simp [hc]
  · have herr : sendMessageOutcome statusCode u = DeliveryOutcome.httpStatusError := by
      simp [sendMessageOutcome, h]
    exact ⟨by simp [herr, h], fun _ => herr, fun h200 => absurd h200 h, hok⟩

/-- C1, witness: status 400 reports an HTTP-status error; a 200 body with
`code` 1 is rejected. -/
theorem C1_delivery_witness :
    (400 : Nat) ≠ 200 ∧
    sendMessageOutcome 400 none = DeliveryOutcome.httpStatusError ∧
    hasNonzeroCode (some [("code", JValue.num 1)]) = true ∧
    sendMessageOutcome 200 (some [("code", JValue.num 1)]) =
      DeliveryOutcome.remoteRejected :=
  ⟨by decide, (C1_delivery 400 none).2.1 (by decide), by decide,
   (C1_delivery 200 (some [("code", JValue.num 1)])).2.2.1 rfl (by decide)⟩

/-- C2: the signature is the standard Base64 encoding of the HMAC-SHA256
digest with key `timestamp ++ "\n" ++ secret` over the empty message; it is
deterministic and never empty for non-empty inputs.  The modelled stack is
pinned to real HMAC-SHA256 by the vector theorems above and by the last two
conjuncts, which state the concrete signatures that Go's `crypto/hmac`
produces at the repository test pair and at a 119-byte key (longer than the
HMAC block size). -/
theorem C2_signature (t s : String) :
    generateSignature t s =
      base64Encode (hmacSha256 (strBytes (t ++ "\n" ++ s)) []) ∧
    (∀ t2 s2, t = t2 → s = s2 → generateSignature t s = generateSignature t2 s2) ∧
    (t ≠ "" → s ≠ "" → generateSignature t s ≠ "") ∧
    generateSignature "1622222222" "test_secret" =
      "ameEs39IMOBQRbxy+/TOirHlqQXU9O+AR9OnatDi6zM=" ∧
    generateSignature "1622222222" (String.mk (List.replicate 108 (Char.ofNat 115))) =
      "Y+n7ksf4o83EfC/Lx18GlQCJUNSCyHPlTf6g9IJM/i4=" := by
  refine ⟨rfl, fun t2 s2 ht hs => by rw [ht, hs], fun _ _ => ?_,
    generateSignature_vector, generateSignature_vector_longKey⟩
  show String.mk (base64Chars (hmacSha256 (strBytes (t ++ "\n" ++ s)) [])) ≠ ""
  apply strMk_ne_empty
  apply base64Chars_ne_nil
  intro hnil
  have hlen := hmacSha256_length (strBytes (t ++ "\n" ++ s)) []
  rw [hnil] at hlen
  simp at hlen

/-- C2, witness: the signature of the test pair from the repository's own
test suite is non-empty. -/
theorem C2_signature_witness :
    ("1622222222" : String) ≠ "" ∧ ("test_secret" : String) ≠ "" ∧
    generateSignature "1622222222" "test_secret" ≠ "" :=
  ⟨by decide, by decide,
   (C2_signature "1622222222" "test_secret").2.2.1 (by decide) (by decide)⟩

/-- C3: if the override status is `failure`, or the override is empty and
the pipeline status is `failure`, the card header is red and the card/text
titles indicate failure; every other combination yields green/success. -/
theorem C3_status (e : Env) (v : String) :
    ((osGetenv e "PLUGIN_STATUS" = "failure" ∨
      (osGetenv e "PLUGIN_STATUS" = "" ∧ osGetenv e "DRONE_BUILD_STATUS" = "failure")) →
      cardHeaderTemplate (createLarkCard e v) = some "red" ∧
      cardHeaderTitle (createLarkCard e v) =
        some (getEnvOrDefault e "CI_REPO_NAME" "" ++ " - " ++ alarmIcon ++ " " ++
          "Pipeline Failed") ∧
      ∃ rest, textMessageBody e v =
        alarmIcon ++ " " ++ "PIPELINE FAILED" ++ "\n\n" ++ rest) ∧
    (¬(osGetenv e "PLUGIN_STATUS" = "failure" ∨
       (osGetenv e "PLUGIN_STATUS" = "" ∧ osGetenv e "DRONE_BUILD_STATUS" = "failure")) →
      cardHeaderTemplate (createLarkCard e v) = some "green" ∧
      cardHeaderTitle (createLarkCard e v) =
        some (getEnvOrDefault e "CI_REPO_NAME" "" ++ " - " ++ checkIcon ++ " " ++
          "Pipeline Succeeded") ∧
      ∃ rest, textMessageBody e v =
        checkIcon ++ " " ++ "PIPELINE SUCCEEDED" ++ "\n\n" ++ rest) := by
  obtain ⟨h1, h2⟩ := cardHeader_parts e v
  constructor
  · intro hcond
    have hf : resolveStatus e = "failure" := (resolveStatus_failure_iff e).mpr hcond
    rw [if_pos hf] at h1
    rw [if_pos hf, if_pos hf] at h2
    refine ⟨h1, h2, textInfoLines e v ++ textMsgLine e ++ textTail e, ?_⟩
    rw [textMessageBody_decomp]
    simp only [textStatusLine, if_pos hf, strAppend_assoc]
  · intro hcond
    have hf : ¬ resolveStatus e = "failure" :=
      fun hx => hcond ((resolveStatus_failure_iff e).mp hx)
    rw [if_neg hf] at h1
    rw [if_neg hf, if_neg hf] at h2
    refine ⟨h1, h2, textInfoLines e v ++ textMsgLine e ++ textTail e, ?_⟩
    rw [textMessageBody_decomp]
    simp only [textStatusLine, if_neg hf, strAppend_assoc]

/-- C3, witness: with override `failure` over a succeeding pipeline the
red/failure branch applies. -/
theorem C3_status_witness :
    (osGetenv envStatusOverride "PLUGIN_STATUS" = "failure" ∨
     (osGetenv envStatusOverride "PLUGIN_STATUS" = "" ∧
      osGetenv envStatusOverride "DRONE_BUILD_STATUS" = "failure")) ∧
    (cardHeaderTemplate (createLarkCard envStatusOverride "v1.0.0") = some "red" ∧
     cardHeaderTitle (createLarkCard envStatusOverride "v1.0.0") =
       some (getEnvOrDefault envStatusOverride "CI_REPO_NAME" "" ++ " - " ++
         alarmIcon ++ " " ++ "Pipeline Failed") ∧
     ∃ rest, textMessageBody envStatusOverride "v1.0.0" =
       alarmIcon ++ " " ++ "PIPELINE FAILED" ++ "\n\n" ++ rest) :=
  ⟨Or.inl (by decide), (C3_status envStatusOverride "v1.0.0").1 (Or.inl (by decide))⟩

/-- C4, counterexample: with the allow-list `commit,pipeline` and both a
pipeline and a commit button built, the filtered output is
`[commit, pipeline]` — the reverse of the built order — so it is not a
subsequence of the built list in its original relative order, contradicting
the claim that original relative order is preserved. -/
theorem C4_counterexample :
    getEnvOrDefault envFilterOrder "PLUGIN_BUTTONS" "" = "commit,pipeline" ∧
    builtButtons envFilterOrder =
      [⟨"View Pipeline", "primary", "https://ci.example/p"⟩,
       ⟨"View Commit", "default", "https://forge.example/c"⟩] ∧
    createActionButtons envFilterOrder =
      [⟨"View Commit", "default", "https://forge.example/c"⟩,
       ⟨"View Pipeline", "primary", "https://ci.example/p"⟩] ∧
    ¬ (createActionButtons envFilterOrder).Sublist (builtButtons envFilterOrder) :=
  ⟨by decide, by decide, by decide, by decide⟩

/-- C4 (amended): with a non-empty allow-list the result lists, for each
requested name in allow-list order (trimmed of surrounding whitespace), the
first built button whose label contains the name's category substring;
every element of the result is a built button matching some requested name,
and unmatched names contribute nothing.  The order follows the allow-list,
not the built list. -/
theorem C4_filter (e : Env) (h : getEnvOrDefault e "PLUGIN_BUTTONS" "" ≠ "") :
    createActionButtons e =
      (goSplit (getEnvOrDefault e "PLUGIN_BUTTONS" "") ',').filterMap
        (fun name => (builtButtons e).find? (btnMatch (goTrim name))) ∧
    ∀ b ∈ createActionButtons e,
      b ∈ builtButtons e ∧
      ∃ name ∈ goSplit (getEnvOrDefault e "PLUGIN_BUTTONS" "") ',',
        btnMatch (goTrim name) b = true := by
  have he : createActionButtons e =
      filterButtons (getEnvOrDefault e "PLUGIN_BUTTONS" "") (builtButtons e) := by
    simp [createActionButtons, h]
  rw [he, filterButtons_eq]
  refine ⟨rfl, ?_⟩
  intro b hb
  rw [List.mem_filterMap] at hb
  obtain ⟨name, hn, hfind⟩ := hb
  exact ⟨List.mem_of_find?_eq_some hfind, name, hn, List.find?_some hfind⟩

/-- C4, witness: the filterMap characterization at a concrete pair of built
buttons and allow-list. -/
theorem C4_filter_witness :
    getEnvOrDefault envFilterOrder "PLUGIN_BUTTONS" "" ≠ "" ∧
    createActionButtons envFilterOrder =
      (goSplit (getEnvOrDefault envFilterOrder "PLUGIN_BUTTONS" "") ',').filterMap
        (fun name => (builtButtons envFilterOrder).find? (btnMatch (goTrim name))) :=
  ⟨by decide, (C4_filter envFilterOrder (by decide)).1⟩

/-- C5, counterexample: with a commit tag present, no repository URL and a
forge URL present, the release rule's condition fails and a forge URL is
present, yet no `View Commit` button is appended (the button list is
empty): the commit branch is the `else` of the tag check alone, not of the
tag-and-repo conjunction. -/
theorem C5_counterexample :
    osGetenv envTagNoRepo "CI_COMMIT_TAG" = "v1.0.0" ∧
    osGetenv envTagNoRepo "CI_REPO_URL" = "" ∧
    osGetenv envTagNoRepo "CI_PIPELINE_FORGE_URL" = "https://forge.example/c" ∧
    createActionButtons envTagNoRepo = [] :=
  ⟨by decide, by decide, by decide, by decide⟩

/-- C5 (amended): the `View Commit` button (style `default`) is appended
exactly when the commit tag is empty and a forge URL is present; with a tag
and a repository URL both present a `View Release` button linking to
`{repoURL}/releases/tag/{tag}` is appended instead; with a tag but no
repository URL neither button is appended. -/
theorem C5_buttons (e : Env) :
    (getEnvOrDefault e "CI_COMMIT_TAG" "" = "" →
      getEnvOrDefault e "CI_PIPELINE_FORGE_URL" "" ≠ "" →
      builtButtons e = pipelinePart e ++
        [⟨"View Commit", "default", getEnvOrDefault e "CI_PIPELINE_FORGE_URL" ""⟩]) ∧
    (getEnvOrDefault e "CI_COMMIT_TAG" "" ≠ "" →
      getEnvOrDefault e "CI_REPO_URL" "" ≠ "" →
      builtButtons e = pipelinePart e ++
        [⟨"View Release", "default",
          getEnvOrDefault e "CI_REPO_URL" "" ++ "/releases/tag/" ++
            getEnvOrDefault e "CI_COMMIT_TAG" ""⟩]) ∧
    (getEnvOrDefault e "CI_COMMIT_TAG" "" ≠ "" →
      getEnvOrDefault e "CI_REPO_URL" "" = "" →
      builtButtons e = pipelinePart e) := by
  refine ⟨fun h1 h2 => ?_, fun h1 h2 => ?_, fun h1 h2 => ?_⟩ <;>
    simp [builtButtons, pipelinePart, h1, h2]

/-- C5, witness: with only a forge URL the commit button is appended. -/
theorem C5_buttons_witness :
    getEnvOrDefault envForgeOnly "CI_COMMIT_TAG" "" = "" ∧
    getEnvOrDefault envForgeOnly "CI_PIPELINE_FORGE_URL" "" ≠ "" ∧
    builtButtons envForgeOnly = pipelinePart envForgeOnly ++
      [⟨"View Commit", "default",
        getEnvOrDefault envForgeOnly "CI_PIPELINE_FORGE_URL" ""⟩] :=
  ⟨by decide, by decide, (C5_buttons envForgeOnly).1 (by decide) (by decide)⟩

/-- C6, counterexample: with no tag and the 3-character SHA `abc`, Go's
`sha[:7]` panics (slice bound out of range), so version resolution does not
terminate normally — the model returns `none`. -/
theorem C6_counterexample :
    osGetenv envShortSha "CI_COMMIT_TAG" = "" ∧
    osGetenv envShortSha "CI_COMMIT_SHA" = "abc" ∧
    getProjectVersion envShortSha = none :=
  ⟨by decide, by decide, by decide⟩

/-- C6 (amended): version resolution terminates normally and returns a
string for every environment in which the commit SHA is empty or at least 7
characters long; with a non-empty SHA shorter than 7 characters and no tag
it panics. -/
theorem C6_version_total (e : Env)
    (h : getEnvOrDefault e "CI_COMMIT_SHA" "" = "" ∨
         7 ≤ (getEnvOrDefault e "CI_COMMIT_SHA" "").data.length) :
    (getProjectVersion e).isSome = true := by
  by_cases ht : getEnvOrDefault e "CI_COMMIT_TAG" "" ≠ ""
  · simp [getProjectVersion, ht]
  · by_cases hs : getEnvOrDefault e "CI_COMMIT_SHA" "" ≠ ""
    · rcases h with h | h
      · exact absurd h hs
      · have h7 : 7 ≤ (getEnvOrDefault e "CI_COMMIT_SHA" "").length := h
        simp [getProjectVersion, goSliceTo, ht, hs, h, h7]
    · simp [getProjectVersion, ht, hs]

/-- C6, witness: a 16-character SHA resolves without panic. -/
theorem C6_version_total_witness :
    7 ≤ (getEnvOrDefault envLongSha "CI_COMMIT_SHA" "").data.length ∧
    (getProjectVersion envLongSha).isSome = true :=
  ⟨by decide, C6_version_total envLongSha (Or.inr (by decide))⟩

/-- C7: whenever the commit SHA is empty or at least 7 characters long, the
resolved version is the tag if non-empty, else the first 7 characters of a
non-empty SHA, else the empty string. -/
theorem C7_version (e : Env)
    (h : getEnvOrDefault e "CI_COMMIT_SHA" "" = "" ∨
         7 ≤ (getEnvOrDefault e "CI_COMMIT_SHA" "").data.length) :
    getProjectVersion e = some
      (if getEnvOrDefault e "CI_COMMIT_TAG" "" ≠ "" then
        getEnvOrDefault e "CI_COMMIT_TAG" ""
       else if getEnvOrDefault e "CI_COMMIT_SHA" "" ≠ "" then
        String.mk ((getEnvOrDefault e "CI_COMMIT_SHA" "").data.take 7)
       else "") := by
  by_cases ht : getEnvOrDefault e "CI_COMMIT_TAG" "" ≠ ""
  · simp [getProjectVersion, ht]
  · by_cases hs : getEnvOrDefault e "CI_COMMIT_SHA" "" ≠ ""
    · rcases h with h | h
      · exact absurd h hs
      · have h7 : 7 ≤ (getEnvOrDefault e "CI_COMMIT_SHA" "").length := h
        simp [getProjectVersion, goSliceTo, ht, hs, h, h7]
    · simp [getProjectVersion, ht, hs]

/-- C7, witness: the specification's own examples — SHA
`abcdef1234567890` gives `abcdef1`, and an empty environment gives `""`. -/
theorem C7_version_witness :
    7 ≤ (getEnvOrDefault envLongSha "CI_COMMIT_SHA" "").data.length ∧
    getProjectVersion envLongSha = some "abcdef1" ∧
    getProjectVersion envEmpty = some "" :=
  ⟨by decide,
   (C7_version envLongSha (Or.inr (by decide))).trans (by decide),
   (C7_version envEmpty (Or.inl (by decide))).trans (by decide)⟩

/-- C8: both the card and the text message render only the portion of the
commit message before its first newline, and `line one\nline two` renders
as `line one`. -/
theorem C8_first_line (e : Env) (v : String) :
    cardCommitContent (createLarkCard e v) =
      some ("**Commit Message:**\n" ++
        String.mk ((getEnvOrDefault e "CI_COMMIT_MESSAGE" "").data.takeWhile
          (fun c => c ≠ '\n'))) ∧
    (∃ pre post, textMessageBody e v =
      pre ++ (messageGlyph ++ " Message: " ++
        String.mk ((getEnvOrDefault e "CI_COMMIT_MESSAGE" "").data.takeWhile
          (fun c => c ≠ '\n')) ++ "\n") ++ post) ∧
    goFirstLine "line one\nline two" = "line one" := by
  refine ⟨?_, ⟨textStatusLine e ++ textInfoLines e v, textTail e, ?_⟩, by decide⟩
  · rw [cardCommitContent_eq, goFirstLine_eq]
  · rw [textMessageBody_decomp]
    simp only [textMsgLine, goFirstLine_eq, strAppend_assoc]

/-- C9: with a non-empty allow-list, each button occurs in the output once
per requested name it is the first match of, so duplicated names produce
duplicated buttons and the output can be longer than the built list — as
realized by the allow-list `pipeline,pipeline` over a single built
button. -/
theorem C9_duplicate_filters :
    (∀ (e : Env) (b : Button), getEnvOrDefault e "PLUGIN_BUTTONS" "" ≠ "" →
      (createActionButtons e).countP (fun x => decide (x = b)) =
        (goSplit (getEnvOrDefault e "PLUGIN_BUTTONS" "") ',').countP
          (fun name =>
            decide ((builtButtons e).find? (btnMatch (goTrim name)) = some b))) ∧
    createActionButtons envDupFilter =
      [⟨"View Pipeline", "primary", "https://ci.example/p"⟩,
       ⟨"View Pipeline", "primary", "https://ci.example/p"⟩] ∧
    (builtButtons envDupFilter).length = 1 ∧
    (createActionButtons envDupFilter).length > (builtButtons envDupFilter).length := by
  refine ⟨?_, by decide, by decide, by decide⟩
  intro e b h
  have he : createActionButtons e =
      filterButtons (getEnvOrDefault e "PLUGIN_BUTTONS" "") (builtButtons e) := by
    simp [createActionButtons, h]
  rw [he, filterButtons_eq, countP_filterMap_eq]

/-- C9, witness: the occurrence-count formula instantiated at the
duplicated allow-list. -/
theorem C9_duplicate_filters_witness :
    getEnvOrDefault envDupFilter "PLUGIN_BUTTONS" "" ≠ "" ∧
    (createActionButtons envDupFilter).countP
      (fun x => decide (x = ⟨"View Pipeline", "primary", "https://ci.example/p"⟩)) =
    (goSplit (getEnvOrDefault envDupFilter "PLUGIN_BUTTONS" "") ',').countP
      (fun name =>
        decide ((builtButtons envDupFilter).find? (btnMatch (goTrim name)) =
          some ⟨"View Pipeline", "primary", "https://ci.example/p"⟩)) :=
  ⟨by decide,
   C9_duplicate_filters.1 envDupFilter
     ⟨"View Pipeline", "primary", "https://ci.example/p"⟩ (by decide)⟩

/-- C10: a variable set to the empty string behaves exactly like an unset
one: the lookup returns the default in both cases; in particular
`PLUGIN_USE_CARD` set to `""` still selects card mode, `PLUGIN_SECRET` set
to `""` attaches no signature fields, and `PLUGIN_WEBHOOK_URL` set to `""`
is fatal exactly like an absent one. -/
theorem C10_empty_equals_unset (e : Env) (key d timestamp : String)
    (message : List (String × JValue)) :
    getEnvOrDefault (setVar e key (some "")) key d =
      getEnvOrDefault (setVar e key none) key d ∧
    useCard (setVar e "PLUGIN_USE_CARD" (some "")) = true ∧
    useCard (setVar e "PLUGIN_USE_CARD" none) = true ∧
    attachSignature (setVar e "PLUGIN_SECRET" (some "")) timestamp message = message ∧
    attachSignature (setVar e "PLUGIN_SECRET" none) timestamp message = message ∧
    missingWebhookFatal (setVar e "PLUGIN_WEBHOOK_URL" (some "")) = true ∧
    missingWebhookFatal (setVar e "PLUGIN_WEBHOOK_URL" none) = true := by
  have hv : ∀ (v : Option String) k, osGetenv (setVar e k v) k = v.getD "" := by
    intro v k
    simp [osGetenv, setVar]
  refine ⟨?_, ?_, ?_, ?_, ?_, ?_, ?_⟩ <;>
    simp [getEnvOrDefault, useCard, attachSignature, missingWebhookFatal, hv]

end LarkNotify
